import Mathlib

/-!
Verification of the Linkwarden API client (`src/graphs/linkwarden_api.py` and
`src/graphs/linkwarden_exceptions.py`) against its natural-language
specification.

The client is shallowly embedded: the HTTP transport is an oracle
(`CallOutcome` per issued request), response bodies carry their raw text and
the result of attempting a JSON parse, and Python exceptions become an
explicit `PyExc` result.  The behaviour of the `requests` library primitives
the client relies on (`Response.raise_for_status`, `Response.ok`,
`Response.json`) is modelled from that library's well-known source, since the
client's control flow depends on them.
-/

namespace Linkwarden

/-- A JSON value, as produced by `response.json()` in the Python client. -/
inductive Json where
  | null : Json
  | bool (b : Bool) : Json
  | num (n : Int) : Json
  | str (s : String) : Json
  | arr (elems : List Json) : Json
  | obj (fields : List (String × Json)) : Json

/-- Field lookup on a JSON object (`data["key"]` in Python, `None` when the
value is not an object or lacks the key). -/
def Json.getField : Json → String → Option Json
  | .obj fields, k => fields.lookup k
  | _, _ => none

/-- Python `s.startswith(p)`: the characters of `p` are a prefix of those
of `s`. -/
def pyStartsWith (s p : String) : Bool := p.data.isPrefixOf s.data

/-- Python `s.endswith(p)`: the characters of `p` are a suffix of those
of `s`. -/
def pyEndsWith (s p : String) : Bool := p.data.isSuffixOf s.data

/-- Python `s[:-1]`: the string without its last character. -/
def pyDropLast (s : String) : String := ⟨s.data.dropLast⟩

/-- An HTTP response as the `requests` library exposes it to the client:
the integer status code, the decoded body text (`response.text`, also
standing in for `response.content`), and the result of attempting to parse
the body as JSON (`response.json()`): `some v` when the body is valid JSON,
`none` when that call would raise `JSONDecodeError`. -/
structure HttpResponse where
  status_code : Nat
  text : String
  jsonResult : Option Json

/-- Modelled from the `requests` library source: `Response.raise_for_status`
raises `HTTPError` exactly when `400 <= status_code < 500` (client error) or
`500 <= status_code < 600` (server error). -/
def HttpResponse.raiseForStatusRaises (r : HttpResponse) : Bool :=
  (decide (400 ≤ r.status_code) && decide (r.status_code < 500)) ||
  (decide (500 ≤ r.status_code) && decide (r.status_code < 600))

/-- Modelled from the `requests` library source: `Response.ok` calls
`raise_for_status` and returns `True` exactly when it does not raise. -/
def HttpResponse.ok (r : HttpResponse) : Bool := !r.raiseForStatusRaises

/-- The outcome of one `session.request(...)` call: either a response was
received, or a transport-level `RequestException` (connection refused, DNS
failure, timeout, ...) was raised with the given message. -/
inductive CallOutcome where
  | response (r : HttpResponse) : CallOutcome
  | transportError (msg : String) : CallOutcome

/-- The Python exception classes the client can raise, from
`linkwarden_exceptions.py` (plus the built-in `ValueError` used by the
constructor), each carrying its message string. -/
inductive PyExc where
  | linkwardenAPIError (msg : String) : PyExc
  | linkwardenAuthError (msg : String) : PyExc
  | linkwardenNotFoundError (msg : String) : PyExc
  | linkwardenServerError (msg : String) : PyExc
  | valueError (msg : String) : PyExc

/-- The exception classes relevant to the client, as declared in
`linkwarden_exceptions.py` and Python's builtins. -/
inductive ExcClass where
  | exception
  | linkwardenAPIError
  | linkwardenAuthError
  | linkwardenNotFoundError
  | linkwardenServerError
  | valueError
deriving DecidableEq, Repr

/-- The direct superclass of each exception class, read off the `class`
headers of `linkwarden_exceptions.py` (`LinkwardenAPIError(Exception)`,
`LinkwardenAuthError(LinkwardenAPIError)`, ...) and Python's builtin
`ValueError(Exception)`. -/
def ExcClass.parent : ExcClass → Option ExcClass
  | .exception => none
  | .linkwardenAPIError => some .exception
  | .linkwardenAuthError => some .linkwardenAPIError
  | .linkwardenNotFoundError => some .linkwardenAPIError
  | .linkwardenServerError => some .linkwardenAPIError
  | .valueError => some .exception

/-- The superclass chain of a class, up to the given depth. -/
def ExcClass.ancestorsAux : Nat → ExcClass → List ExcClass
  | 0, c => [c]
  | n + 1, c =>
    c :: (match c.parent with
          | some p => ExcClass.ancestorsAux n p
          | none => [])

/-- Python `isinstance`-style subclass test: `c` is `d` or inherits from it
(the hierarchy here has depth at most 2, so fuel 4 is exact). -/
def ExcClass.isSubclassOf (c d : ExcClass) : Bool :=
  (ExcClass.ancestorsAux 4 c).contains d

/-- The class of a raised exception value. -/
def PyExc.cls : PyExc → ExcClass
  | .linkwardenAPIError _ => .linkwardenAPIError
  | .linkwardenAuthError _ => .linkwardenAuthError
  | .linkwardenNotFoundError _ => .linkwardenNotFoundError
  | .linkwardenServerError _ => .linkwardenServerError
  | .valueError _ => .valueError

/-- What a call to `LinkwardenClient._request` produces: the parsed JSON
value (`return data`), the raw body bytes (`return response.content`), or a
raised exception. -/
inductive ReqResult where
  | jsonValue (j : Json) : ReqResult
  | rawContent (raw : String) : ReqResult
  | raised (e : PyExc) : ReqResult

/-- Whether the routine raised (rather than returned). -/
def ReqResult.isRaised : ReqResult → Bool
  | .raised _ => true
  | _ => false

/-- The `except requests.exceptions.HTTPError` handler of
`LinkwardenClient._request` (linkwarden_api.py lines 97-107): classify the
status code of the response attached to the `HTTPError` and raise the
corresponding Linkwarden exception, embedding status code and raw body. -/
def handleHTTPError (r : HttpResponse) : PyExc :=
  let status_code := r.status_code
  let error_text := r.text
  if status_code = 401 ∨ status_code = 403 then
    .linkwardenAuthError
      ("Authentication error (" ++ toString status_code ++ "): " ++ error_text)
  else if status_code = 404 then
    .linkwardenNotFoundError
      ("Resource not found (" ++ toString status_code ++ "): " ++ error_text)
  else if 500 ≤ status_code ∧ status_code < 600 then
    .linkwardenServerError
      ("Server error (" ++ toString status_code ++ "): " ++ error_text)
  else
    .linkwardenAPIError
      ("HTTP client error (" ++ toString status_code ++ "): " ++ error_text)

/-- The body of the `try`/`except` in `LinkwardenClient._request`
(linkwarden_api.py lines 82-109), given the outcome of the single
`session.request` call it issues:

* a transport-level `RequestException` is re-raised as the base
  `LinkwardenAPIError` wrapping its message (lines 108-109);
* `response.raise_for_status()` raising `HTTPError` sends control to the
  status classifier `handleHTTPError` (lines 84, 97-107);
* otherwise `response.json()` is attempted: on success its value is
  returned (lines 86-88); on `JSONDecodeError`, the raw content is returned
  when `response.ok`, else the base `LinkwardenAPIError` is raised noting
  the body was not valid JSON (lines 89-95). -/
def handleOutcome : CallOutcome → ReqResult
  | .transportError e =>
    .raised (.linkwardenAPIError ("A network request failed: " ++ e))
  | .response r =>
    if r.raiseForStatusRaises then
      .raised (handleHTTPError r)
    else
      match r.jsonResult with
      | some data => .jsonValue data
      | none =>
        if r.ok then
          .rawContent r.text
        else
          .raised (.linkwardenAPIError
            ("Request failed with status " ++ toString r.status_code ++
             ", and the response body was not valid JSON: " ++ r.text))

/-- True when control reaches the `except JSONDecodeError` handler of
`_request`: `raise_for_status` returned without raising and
`response.json()` raised (the body is not valid JSON). -/
def reachesDecodeHandler (r : HttpResponse) : Bool :=
  !r.raiseForStatusRaises && r.jsonResult.isNone

/-- True when the `raise LinkwardenAPIError(...)` arm inside the
`JSONDecodeError` handler executes: the handler is reached and
`response.ok` is false. -/
def decodeHandlerNonOkArm (r : HttpResponse) : Bool :=
  reachesDecodeHandler r && !r.ok

/-- The client state established by `LinkwardenClient.__init__`: the stored
base URL and the `Authorization` header value fixed on the session. -/
structure LinkwardenClient where
  base_url : String
  authorizationHeader : String

/-- `LinkwardenClient.__init__` (linkwarden_api.py lines 29-53): reject a
falsy base URL or one lacking an `http://`/`https://` prefix with
`ValueError`; strip one trailing slash; store the base URL and set the
bearer-token header.  The function takes no transport oracle: construction
issues no network call. -/
def LinkwardenClient.init (base_url : String) (api_token : String) :
    Except PyExc LinkwardenClient :=
  if base_url.data.isEmpty ||
     !(pyStartsWith base_url "http://" || pyStartsWith base_url "https://") then
    .error (.valueError
      "A valid base_url (starting with http:// or https://) is required.")
  else
    let stripped := if pyEndsWith base_url "/" then pyDropLast base_url else base_url
    .ok ⟨stripped, "Bearer " ++ api_token⟩

/-- `LinkwardenClient._request` (linkwarden_api.py lines 55-109): compose
the URL, issue exactly one `session.request` call through the transport
oracle (call index 0; the routine contains no loop and no retry), and
dispatch on its outcome.  The composed URL, method, JSON body and query
parameters travel on the wire and do not affect which outcome the oracle
returns. -/
def LinkwardenClient.request (c : LinkwardenClient) (method endpoint : String)
    (jsonBody : Option Json) (params : List (String × String))
    (transport : Nat → CallOutcome) : ReqResult :=
  let _url := c.base_url ++ "/" ++ endpoint
  let _ := (method, jsonBody, params)
  handleOutcome (transport 0)

/-- `get_collections` (lines 146-153). -/
def LinkwardenClient.get_collections (c : LinkwardenClient)
    (transport : Nat → CallOutcome) : ReqResult :=
  c.request "GET" "api/v1/collections" none [] transport

/-- `create_collection` (lines 155-166): `return self._request("POST",
"api/v1/collections", json=payload)` — the value `_request` returns is
passed back unchanged. -/
def LinkwardenClient.create_collection (c : LinkwardenClient) (payload : Json)
    (transport : Nat → CallOutcome) : ReqResult :=
  c.request "POST" "api/v1/collections" (some payload) [] transport

/-- `get_collection_by_id` (lines 168-178). -/
def LinkwardenClient.get_collection_by_id (c : LinkwardenClient)
    (collection_id : Nat) (transport : Nat → CallOutcome) : ReqResult :=
  c.request "GET" ("api/v1/collections/" ++ toString collection_id) none [] transport

/-- `update_collection` (lines 180-191). -/
def LinkwardenClient.update_collection (c : LinkwardenClient)
    (collection_id : Nat) (payload : Json)
    (transport : Nat → CallOutcome) : ReqResult :=
  c.request "PUT" ("api/v1/collections/" ++ toString collection_id)
    (some payload) [] transport

/-- `get_links` (lines 207-214). -/
def LinkwardenClient.get_links (c : LinkwardenClient)
    (transport : Nat → CallOutcome) : ReqResult :=
  c.request "GET" "api/v1/links" none [] transport

/-- `create_link` (lines 216-227). -/
def LinkwardenClient.create_link (c : LinkwardenClient) (payload : Json)
    (transport : Nat → CallOutcome) : ReqResult :=
  c.request "POST" "api/v1/links" (some payload) [] transport

/-- `get_link_by_id` (lines 229-239). -/
def LinkwardenClient.get_link_by_id (c : LinkwardenClient) (link_id : Nat)
    (transport : Nat → CallOutcome) : ReqResult :=
  c.request "GET" ("api/v1/links/" ++ toString link_id) none [] transport

/-- `update_link` (lines 241-252). -/
def LinkwardenClient.update_link (c : LinkwardenClient) (link_id : Nat)
    (payload : Json) (transport : Nat → CallOutcome) : ReqResult :=
  c.request "PUT" ("api/v1/links/" ++ toString link_id) (some payload) [] transport

/-- `get_tags` (lines 268-275). -/
def LinkwardenClient.get_tags (c : LinkwardenClient)
    (transport : Nat → CallOutcome) : ReqResult :=
  c.request "GET" "api/v1/tags" none [] transport

/-- `create_tag` (lines 277-287). -/
def LinkwardenClient.create_tag (c : LinkwardenClient) (payload : Json)
    (transport : Nat → CallOutcome) : ReqResult :=
  c.request "POST" "api/v1/tags" (some payload) [] transport

/-- `get_current_user` (lines 329-336). -/
def LinkwardenClient.get_current_user (c : LinkwardenClient)
    (transport : Nat → CallOutcome) : ReqResult :=
  c.request "GET" "api/v1/users/me" none [] transport

/-- `search_query` (lines 339-350). -/
def LinkwardenClient.search_query (c : LinkwardenClient) (query : String)
    (transport : Nat → CallOutcome) : ReqResult :=
  c.request "GET" "api/v1/search" none [("searchQueryString", query)] transport

/-- The public operations active in this build of the client (the
commented-out delete/token/archive methods are absent). -/
inductive PublicOp where
  | get_collections
  | create_collection
  | get_collection_by_id
  | update_collection
  | get_links
  | create_link
  | get_link_by_id
  | update_link
  | get_tags
  | create_tag
  | get_current_user
  | search_query
deriving DecidableEq, Repr

/-- Uniform argument record so every public operation can be invoked through
one dispatcher: each operation reads only the arguments its Python signature
takes. -/
structure OpArgs where
  resource_id : Nat
  payload : Json
  query : String

/-- Dispatch a public operation to the corresponding client method. -/
def runOp (c : LinkwardenClient) (op : PublicOp) (a : OpArgs)
    (transport : Nat → CallOutcome) : ReqResult :=
  match op with
  | .get_collections => c.get_collections transport
  | .create_collection => c.create_collection a.payload transport
  | .get_collection_by_id => c.get_collection_by_id a.resource_id transport
  | .update_collection => c.update_collection a.resource_id a.payload transport
  | .get_links => c.get_links transport
  | .create_link => c.create_link a.payload transport
  | .get_link_by_id => c.get_link_by_id a.resource_id transport
  | .update_link => c.update_link a.resource_id a.payload transport
  | .get_tags => c.get_tags transport
  | .create_tag => c.create_tag a.payload transport
  | .get_current_user => c.get_current_user transport
  | .search_query => c.search_query a.query transport

/-- Every public operation returns the value of the shared request routine
applied to the single transport outcome it consumes. -/
theorem runOp_eq_handleOutcome (c : LinkwardenClient) (op : PublicOp)
    (a : OpArgs) (transport : Nat → CallOutcome) :
    runOp c op a transport = handleOutcome (transport 0) := by
  cases op <;> rfl

/-- A 2xx status is outside the range for which `raise_for_status` raises. -/
theorem raiseForStatus_silent_of_2xx (r : HttpResponse)
    (h2 : 200 ≤ r.status_code) (h3 : r.status_code < 300) :
    r.raiseForStatusRaises = false := by
  simp only [HttpResponse.raiseForStatusRaises, Bool.or_eq_false_iff,
    Bool.and_eq_false_iff, decide_eq_false_iff_not, not_le, not_lt]
  omega

/-- C4: for every response with a 2xx status whose body is valid JSON, the
request routine returns the parsed JSON value unchanged. -/
theorem success_json_returned_unchanged (r : HttpResponse) (j : Json)
    (h2 : 200 ≤ r.status_code) (h3 : r.status_code < 300)
    (hj : r.jsonResult = some j) :
    handleOutcome (.response r) = .jsonValue j := by
  simp [handleOutcome, raiseForStatus_silent_of_2xx r h2 h3, hj]

/-- Witness for C4: a 200 response carrying the JSON array `[]` is returned
as that parsed array. -/
theorem success_json_returned_unchanged_witness :
    handleOutcome (.response ⟨200, "[]", some (Json.arr [])⟩) =
      .jsonValue (Json.arr []) :=
  success_json_returned_unchanged ⟨200, "[]", some (Json.arr [])⟩ (Json.arr [])
    (by decide) (by decide) rfl

/-- C5: for every response with a 2xx status whose body is not valid JSON,
the request routine returns the raw response bytes unchanged and raises
nothing. -/
theorem success_nonjson_returns_raw (r : HttpResponse)
    (h2 : 200 ≤ r.status_code) (h3 : r.status_code < 300)
    (hj : r.jsonResult = none) :
    handleOutcome (.response r) = .rawContent r.text := by
  have hr := raiseForStatus_silent_of_2xx r h2 h3
  simp [handleOutcome, hr, hj, HttpResponse.ok]

/-- Witness for C5: a 200 response with a non-JSON body comes back as its
raw content. -/
theorem success_nonjson_returns_raw_witness :
    handleOutcome (.response ⟨200, "PDFDATA", none⟩) = .rawContent "PDFDATA" :=
  success_nonjson_returns_raw ⟨200, "PDFDATA", none⟩ (by decide) (by decide) rfl

/-- C6: for every base URL lacking an `http://`/`https://` prefix (the empty
string included) and every token, the constructor fails with `ValueError`;
`LinkwardenClient.init` takes no transport oracle, so no network call can be
attempted. -/
theorem init_rejects_bad_scheme (base_url api_token : String)
    (h : (pyStartsWith base_url "http://" ||
          pyStartsWith base_url "https://") = false) :
    LinkwardenClient.init base_url api_token =
      .error (.valueError
        "A valid base_url (starting with http:// or https://) is required.") := by
  simp [LinkwardenClient.init, h]

/-- Witness for C6: a URL with an `ftp://` scheme and the empty URL are both
rejected. -/
theorem init_rejects_bad_scheme_witness :
    LinkwardenClient.init "ftp://example.com" "token" =
      .error (.valueError
        "A valid base_url (starting with http:// or https://) is required.") ∧
    LinkwardenClient.init "" "token" =
      .error (.valueError
        "A valid base_url (starting with http:// or https://) is required.") :=
  ⟨init_rejects_bad_scheme "ftp://example.com" "token" (by decide),
   init_rejects_bad_scheme "" "token" (by decide)⟩

/-- A string with a valid scheme prefix is nonempty. -/
theorem scheme_url_not_nil (base_url : String)
    (hv : (pyStartsWith base_url "http://" ||
           pyStartsWith base_url "https://") = true) :
    base_url.data.isEmpty = false := by
  cases hd : base_url.data with
  | nil =>
    have : base_url = ⟨[]⟩ := String.ext hd
    subst this
    exact absurd hv (by decide)
  | cons a as => rfl

/-- C7: for every base URL with a valid scheme, construction succeeds; when
the URL ends with a slash the stored base URL is the URL with exactly one
trailing slash removed (restoring the slash restores the URL), and without a
trailing slash the URL is stored unchanged. -/
theorem init_strips_one_trailing_slash (base_url api_token : String)
    (hv : (pyStartsWith base_url "http://" ||
           pyStartsWith base_url "https://") = true) :
    (pyEndsWith base_url "/" = true →
      ∃ c, LinkwardenClient.init base_url api_token = .ok c ∧
        c.base_url ++ "/" = base_url) ∧
    (pyEndsWith base_url "/" = false →
      ∃ c, LinkwardenClient.init base_url api_token = .ok c ∧
        c.base_url = base_url) := by
  have hne := scheme_url_not_nil base_url hv
  constructor
  · intro hslash
    refine ⟨⟨pyDropLast base_url, "Bearer " ++ api_token⟩, ?_, ?_⟩
    · simp [LinkwardenClient.init, hv, hne, hslash]
    · have hsuf : "/".data <:+ base_url.data := by
        have h1 : List.isSuffixOf "/".data base_url.data = true := by
          simpa [pyEndsWith] using hslash
        exact List.isSuffixOf_iff_suffix.mp h1
      obtain ⟨t, ht⟩ := hsuf
      apply String.ext
      show (pyDropLast base_url).data ++ "/".data = base_url.data
      simp only [pyDropLast]
      rw [← ht]
      have hd : "/".data = ['/'] := rfl
      rw [hd]
      simp
  · intro hnoslash
    refine ⟨⟨base_url, "Bearer " ++ api_token⟩, ?_, rfl⟩
    simp [LinkwardenClient.init, hv, hne, hnoslash]

/-- Witness for C7: `https://example.com/` is stored as
`https://example.com`, and `http://example.com` is stored unchanged. -/
theorem init_strips_one_trailing_slash_witness :
    (∃ c, LinkwardenClient.init "https://example.com/" "t" = .ok c ∧
      c.base_url ++ "/" = "https://example.com/") ∧
    (∃ c, LinkwardenClient.init "http://example.com" "t" = .ok c ∧
      c.base_url = "http://example.com") :=
  ⟨(init_strips_one_trailing_slash "https://example.com/" "t" (by decide)).1
      (by decide),
   (init_strips_one_trailing_slash "http://example.com" "t" (by decide)).2
      (by decide)⟩

/-- Every status in `[400,600)` makes `raise_for_status` raise. -/
theorem raiseForStatus_raises_of_error (r : HttpResponse)
    (h1 : 400 ≤ r.status_code) (h2 : r.status_code < 600) :
    r.raiseForStatusRaises = true := by
  simp only [HttpResponse.raiseForStatusRaises, Bool.or_eq_true,
    Bool.and_eq_true, decide_eq_true_eq]
  omega

/-- C1 (amended): for every response with a status in `[400,600)`, the
routine raises the status-classified exception — auth error for 401/403,
not-found error for 404, server error for 5xx, and the generic base API
error for every other 4xx — each with the status code and the raw response
body embedded in its message.  (Statuses `≥ 600` are outside the range for
which `raise_for_status` raises, so no exception is classified for them;
see the counterexample.) -/
theorem error_status_classification (r : HttpResponse)
    (h1 : 400 ≤ r.status_code) (h2 : r.status_code < 600) :
    (r.status_code = 401 ∨ r.status_code = 403 →
      handleOutcome (.response r) = .raised (.linkwardenAuthError
        ("Authentication error (" ++ toString r.status_code ++ "): " ++ r.text))) ∧
    (r.status_code = 404 →
      handleOutcome (.response r) = .raised (.linkwardenNotFoundError
        ("Resource not found (" ++ toString r.status_code ++ "): " ++ r.text))) ∧
    (500 ≤ r.status_code →
      handleOutcome (.response r) = .raised (.linkwardenServerError
        ("Server error (" ++ toString r.status_code ++ "): " ++ r.text))) ∧
    (r.status_code ≠ 401 → r.status_code ≠ 403 → r.status_code ≠ 404 →
      r.status_code < 500 →
      handleOutcome (.response r) = .raised (.linkwardenAPIError
        ("HTTP client error (" ++ toString r.status_code ++ "): " ++ r.text))) := by
  have hr := raiseForStatus_raises_of_error r h1 h2
  refine ⟨?_, ?_, ?_, ?_⟩
  · intro hauth
    simp [handleOutcome, hr, handleHTTPError, hauth]
  · intro h404
    have hne : ¬(r.status_code = 401 ∨ r.status_code = 403) := by omega
    simp [handleOutcome, hr, handleHTTPError, hne, h404]
  · intro h5xx
    have hne : ¬(r.status_code = 401 ∨ r.status_code = 403) := by omega
    have hne4 : r.status_code ≠ 404 := by omega
    simp [handleOutcome, hr, handleHTTPError, hne, hne4, h5xx, h2]
  · intro hn1 hn3 hn4 hlt
    have hne : ¬(r.status_code = 401 ∨ r.status_code = 403) := by
      simp [hn1, hn3]
    have hns : ¬(500 ≤ r.status_code ∧ r.status_code < 600) := by omega
    simp [handleOutcome, hr, handleHTTPError, hne, hn4, hns]

/-- Witness for C1 (amended): a 403 response raises the auth error, a 404
the not-found error, a 503 the server error, and a 418 the generic base API
error, each message embedding status and body. -/
theorem error_status_classification_witness :
    handleOutcome (.response ⟨403, "denied", none⟩) =
      .raised (.linkwardenAuthError
        ("Authentication error (" ++ toString (403 : Nat) ++ "): " ++ "denied")) ∧
    handleOutcome (.response ⟨404, "missing", none⟩) =
      .raised (.linkwardenNotFoundError
        ("Resource not found (" ++ toString (404 : Nat) ++ "): " ++ "missing")) ∧
    handleOutcome (.response ⟨503, "down", none⟩) =
      .raised (.linkwardenServerError
        ("Server error (" ++ toString (503 : Nat) ++ "): " ++ "down")) ∧
    handleOutcome (.response ⟨418, "teapot", none⟩) =
      .raised (.linkwardenAPIError
        ("HTTP client error (" ++ toString (418 : Nat) ++ "): " ++ "teapot")) :=
  ⟨(error_status_classification ⟨403, "denied", none⟩ (by decide) (by decide)).1
      (Or.inr rfl),
   (error_status_classification ⟨404, "missing", none⟩ (by decide)
      (by decide)).2.1 rfl,
   (error_status_classification ⟨503, "down", none⟩ (by decide)
      (by decide)).2.2.1 (by decide),
   (error_status_classification ⟨418, "teapot", none⟩ (by decide)
      (by decide)).2.2.2 (by decide) (by decide) (by decide) (by decide)⟩

/-- Counterexample to C1 as stated: a response with status 600 (which is
`≥ 400` but outside every listed class) and a valid-JSON body raises
nothing — `raise_for_status` only raises for statuses in `[400,600)` — so
the claim that every other status `≥ 400` raises the generic base API error
is false. -/
theorem error_status_classification_counterexample :
    handleOutcome (.response ⟨600, "odd", some (Json.obj [])⟩) =
      .jsonValue (Json.obj []) ∧
    (handleOutcome (.response ⟨600, "odd", some (Json.obj [])⟩)).isRaised
      = false := by
  exact ⟨rfl, rfl⟩

/-- Counterexample to C3 as stated: a 401 response whose body is not valid
JSON raises `LinkwardenAuthError` — a proper specialization, whose class is
not `LinkwardenAPIError` itself — because status classification happens in
the `HTTPError` handler before any JSON parse is attempted. -/
theorem failed_nonjson_counterexample :
    handleOutcome (.response ⟨401, "<html>unauthorized</html>", none⟩) =
      .raised (.linkwardenAuthError
        "Authentication error (401): <html>unauthorized</html>") ∧
    (PyExc.linkwardenAuthError
        "Authentication error (401): <html>unauthorized</html>").cls ≠
      ExcClass.linkwardenAPIError := by
  exact ⟨rfl, by decide⟩

/-- C3 (amended): for every response with a status in `[400,600)` whose body
is not valid JSON, the routine raises the status-classified exception (an
instance of the base API error class), exactly as it would for any body:
the JSON-parse failure is never reached and never causes a crash. -/
theorem failed_nonjson_raises_classified (r : HttpResponse)
    (hj : r.jsonResult = none)
    (h1 : 400 ≤ r.status_code) (h2 : r.status_code < 600) :
    handleOutcome (.response r) = .raised (handleHTTPError r) ∧
    (handleHTTPError r).cls.isSubclassOf ExcClass.linkwardenAPIError = true ∧
    (∀ j, handleOutcome (.response r) =
      handleOutcome (.response ⟨r.status_code, r.text, some j⟩)) := by
  have hr := raiseForStatus_raises_of_error r h1 h2
  refine ⟨by simp [handleOutcome, hr], ?_, ?_⟩
  · unfold handleHTTPError
    dsimp only
    split
    · rfl
    · split
      · rfl
      · split
        · rfl
        · rfl
  · intro j
    have hr2 : HttpResponse.raiseForStatusRaises
        ⟨r.status_code, r.text, some j⟩ = true :=
      raiseForStatus_raises_of_error _ h1 h2
    simp [handleOutcome, hr, hr2, handleHTTPError]

/-- Witness for C3 (amended): a 404 with an HTML body raises the classified
not-found error, which is an instance of the base API error class. -/
theorem failed_nonjson_raises_classified_witness :
    handleOutcome (.response ⟨404, "<html>gone</html>", none⟩) =
      .raised (handleHTTPError ⟨404, "<html>gone</html>", none⟩) ∧
    (handleHTTPError ⟨404, "<html>gone</html>", none⟩).cls.isSubclassOf
      ExcClass.linkwardenAPIError = true ∧
    (∀ j, handleOutcome (.response ⟨404, "<html>gone</html>", none⟩) =
      handleOutcome (.response ⟨404, "<html>gone</html>", some j⟩)) :=
  failed_nonjson_raises_classified ⟨404, "<html>gone</html>", none⟩ rfl
    (by decide) (by decide)

/-- Counterexample to C9 as stated: a response with status 600 and a
non-JSON body does reach the `JSONDecodeError` handler (JSON parsing is
attempted and fails after `raise_for_status` returned silently), yet its
status is not `< 400` — so the claim's invariant "every response reaching
the JSON-decode handler has a status < 400" is false.  The non-ok arm still
does not execute there. -/
theorem decode_handler_counterexample :
    reachesDecodeHandler ⟨600, "binary", none⟩ = true ∧
    ¬((600 : Nat) < 400) ∧
    decodeHandlerNonOkArm ⟨600, "binary", none⟩ = false := by
  exact ⟨rfl, by decide, rfl⟩

/-- C9 (amended): the failure arm of the `JSONDecodeError` handler is
unreachable — control reaches the handler exactly when `raise_for_status`
returned without raising, which coincides with `response.ok` being true (for
requests, `ok` is defined through `raise_for_status`), so every response
reaching the handler takes the `return response.content` arm and the
`raise LinkwardenAPIError(...)` arm never executes.  (The claim's stronger
invariant that such statuses are all `< 400` fails at statuses `≥ 600`.) -/
theorem decode_handler_nonok_arm_unreachable (r : HttpResponse)
    (h : reachesDecodeHandler r = true) :
    r.ok = true ∧ decodeHandlerNonOkArm r = false ∧
    handleOutcome (.response r) = .rawContent r.text := by
  have hparts : r.raiseForStatusRaises = false ∧ r.jsonResult.isNone = true := by
    simpa [reachesDecodeHandler, Bool.not_eq_true'] using h
  have hraise : r.raiseForStatusRaises = false := hparts.1
  have hjson : r.jsonResult = none := Option.isNone_iff_eq_none.mp hparts.2
  have hok : r.ok = true := by simp [HttpResponse.ok, hraise]
  refine ⟨hok, ?_, ?_⟩
  · simp [decodeHandlerNonOkArm, hok]
  · simp [handleOutcome, hraise, hjson, hok]

/-- Witness for C9 (amended): a 204 response with an empty non-JSON body
reaches the handler and comes back as raw content. -/
theorem decode_handler_nonok_arm_unreachable_witness :
    HttpResponse.ok ⟨204, "", none⟩ = true ∧
    decodeHandlerNonOkArm ⟨204, "", none⟩ = false ∧
    handleOutcome (.response ⟨204, "", none⟩) = .rawContent "" :=
  decode_handler_nonok_arm_unreachable ⟨204, "", none⟩ rfl

/-- C2: evaluating `create_collection` on the spec scenario — payload
`name = "Reading List"`, server answering 201 with body
`response: (id: 1, name: "Reading List")` — the client returns the whole
parsed wrapper object (`return data` in `_request`), whose top level has no
`id` field, only the `response` key; it does not unwrap to the Collection
resource the docstring ("the API's response key") and the spec promise. -/
theorem create_collection_returns_wrapper :
    LinkwardenClient.create_collection
      ⟨"https://lw.example.com", "Bearer t"⟩
      (Json.obj [("name", Json.str "Reading List")])
      (fun _ => .response ⟨201,
        "\x7b\"response\": \x7b\"id\": 1, \"name\": \"Reading List\"\x7d\x7d",
        some (Json.obj [("response",
          Json.obj [("id", Json.num 1), ("name", Json.str "Reading List")])])⟩)
      = .jsonValue (Json.obj [("response",
          Json.obj [("id", Json.num 1), ("name", Json.str "Reading List")])]) ∧
    (Json.getField
      (Json.obj [("response",
        Json.obj [("id", Json.num 1), ("name", Json.str "Reading List")])])
      "id").isNone = true ∧
    (Json.getField
      (Json.obj [("response",
        Json.obj [("id", Json.num 1), ("name", Json.str "Reading List")])])
      "response").isSome = true := by
  refine ⟨rfl, ?_, ?_⟩ <;> decide

/-- C8: for every public operation, when the single HTTP call fails at the
transport level, the client raises the generic base API error whose message
wraps the transport exception's text; and the operation's result depends
only on the first (index-0) transport outcome — exactly one request is
issued, with no retry. -/
theorem transport_failure_raises_base_error (c : LinkwardenClient)
    (op : PublicOp) (a : OpArgs) (transport : Nat → CallOutcome) (e : String)
    (h : transport 0 = .transportError e) :
    runOp c op a transport =
      .raised (.linkwardenAPIError ("A network request failed: " ++ e)) ∧
    (∀ transport2 : Nat → CallOutcome, transport2 0 = transport 0 →
      runOp c op a transport2 = runOp c op a transport) := by
  constructor
  · rw [runOp_eq_handleOutcome, h]
    rfl
  · intro transport2 h2
    rw [runOp_eq_handleOutcome, runOp_eq_handleOutcome, h2]

/-- Witness for C8: a refused connection during `get_links` surfaces as the
generic base API error wrapping the transport message. -/
theorem transport_failure_raises_base_error_witness :
    runOp ⟨"https://lw.example.com", "Bearer t"⟩ .get_links
      ⟨0, Json.null, ""⟩ (fun _ => .transportError "Connection refused") =
      .raised (.linkwardenAPIError
        ("A network request failed: " ++ "Connection refused")) ∧
    (∀ transport2 : Nat → CallOutcome,
      transport2 0 = (fun _ => CallOutcome.transportError "Connection refused") 0 →
      runOp ⟨"https://lw.example.com", "Bearer t"⟩ .get_links
        ⟨0, Json.null, ""⟩ transport2 =
      runOp ⟨"https://lw.example.com", "Bearer t"⟩ .get_links
        ⟨0, Json.null, ""⟩ (fun _ => .transportError "Connection refused")) :=
  transport_failure_raises_base_error ⟨"https://lw.example.com", "Bearer t"⟩
    .get_links ⟨0, Json.null, ""⟩
    (fun _ => .transportError "Connection refused") "Connection refused" rfl

/-- Every exception the request routine raises is an instance of the base
`LinkwardenAPIError` class. -/
theorem handleOutcome_raised_instance (o : CallOutcome) (ex : PyExc)
    (h : handleOutcome o = .raised ex) :
    ex.cls.isSubclassOf ExcClass.linkwardenAPIError = true := by
  cases o with
  | transportError e =>
    simp only [handleOutcome, ReqResult.raised.injEq] at h
    rw [← h]
    rfl
  | response r =>
    by_cases hr : r.raiseForStatusRaises = true
    · simp only [handleOutcome, hr, if_true, ReqResult.raised.injEq] at h
      rw [← h]
      unfold handleHTTPError
      dsimp only
      split
      · rfl
      · split
        · rfl
        · split
          · rfl
          · rfl
    · have hr2 : r.raiseForStatusRaises = false := by
        simpa [Bool.not_eq_true] using hr
      have hok : r.ok = true := by simp [HttpResponse.ok, hr2]
      cases hj : r.jsonResult with
      | some j => simp [handleOutcome, hr2, hj] at h
      | none => simp [handleOutcome, hr2, hj, hok] at h

/-- C10: every exception any public operation raises through the request
routine is an instance of the single base class `LinkwardenAPIError`, so a
caller catching `LinkwardenAPIError` catches every such failure; only the
constructor's `ValueError` sits outside that hierarchy. -/
theorem raised_errors_are_api_errors (c : LinkwardenClient) (op : PublicOp)
    (a : OpArgs) (transport : Nat → CallOutcome) (ex : PyExc)
    (h : runOp c op a transport = .raised ex) :
    ex.cls.isSubclassOf ExcClass.linkwardenAPIError = true ∧
    ExcClass.valueError.isSubclassOf ExcClass.linkwardenAPIError = false := by
  refine ⟨?_, by decide⟩
  rw [runOp_eq_handleOutcome] at h
  exact handleOutcome_raised_instance (transport 0) ex h

/-- Witness for C10: the auth error a 401 produces during `get_current_user`
is an instance of the base class. -/
theorem raised_errors_are_api_errors_witness :
    (PyExc.linkwardenAuthError
      "Authentication error (401): no").cls.isSubclassOf
      ExcClass.linkwardenAPIError = true ∧
    ExcClass.valueError.isSubclassOf ExcClass.linkwardenAPIError = false :=
  raised_errors_are_api_errors ⟨"https://lw.example.com", "Bearer t"⟩
    .get_current_user ⟨0, Json.null, ""⟩
    (fun _ => .response ⟨401, "no", none⟩)
    (.linkwardenAuthError "Authentication error (401): no") rfl

end Linkwarden
